import Mathlib

/-!
Shallow embedding of the cf-parser repository (Python) in Lean 4.

Python strings are modelled as `List Char`; file contents are passed as
explicit values.  Each Python string operation used by the embedded code is
defined with Python's semantics (`str.split()`, `str.split(sep)`,
`str.count(sub)`, `str.find(sub)`, `str.splitlines()`, `str.removeprefix`,
`str.removesuffix`, `str.strip('\n')`, `str.lower()`, `str.isdigit()`).
Python `int` values that can go negative are modelled as `Int`.
-/

set_option maxRecDepth 10000

namespace CFParser

abbrev Str := List Char

/-- Python ASCII whitespace, as used by `str.split()` with no argument. -/
def pyIsSpace (c : Char) : Bool :=
  c = ' ' || c = '\t' || c = '\n' || c = '\r' || c = '\x0b' || c = '\x0c'

/-- Python `str.isdigit()` restricted to ASCII decimal digits. -/
def pyIsDigit (c : Char) : Bool :=
  '0' ≤ c && c ≤ '9'

/-- Python `str.lower()` on ASCII letters, applied character-wise. -/
def pyLowerChar (c : Char) : Char :=
  if 'A' ≤ c && c ≤ 'Z' then Char.ofNat (c.toNat + 32) else c

/-- Python `str.lower()`. -/
def pyLower (s : Str) : Str := s.map pyLowerChar

/-- Python `str.split()` with no argument: split on whitespace runs and drop
empty pieces. -/
def pySplitWs (s : Str) : List Str :=
  (s.splitOnP pyIsSpace).filter (fun t => !t.isEmpty)

/-- Python `str.removeprefix(p)`. -/
def pyDropPre (p s : Str) : Str :=
  if p.isPrefixOf s then s.drop p.length else s

/-- Python `str.removesuffix(suf)` for a nonempty suffix. -/
def pyDropSuf (suf s : Str) : Str :=
  if suf ≠ [] ∧ suf.isSuffixOf s then s.take (s.length - suf.length) else s

/-- Worker for Python `str.split(sep)`: scans left to right, splitting at
each leftmost non-overlapping occurrence of `sep`; the `fuel` argument only
bounds the recursion and never runs out when it starts at the scanned
string's length. -/
def pySplitSepGo (sep : Str) : Nat → Str → List Str
  | _, [] => [[]]
  | 0, s => [s]
  | fuel + 1, c :: rest =>
    if sep ≠ [] ∧ sep.isPrefixOf (c :: rest) then
      [] :: pySplitSepGo sep fuel ((c :: rest).drop sep.length)
    else
      (pySplitSepGo sep fuel rest).modifyHead (c :: ·)

/-- Python `str.split(sep)` for a nonempty separator: leftmost,
non-overlapping occurrences. -/
def pySplitSep (sep : Str) (s : Str) : List Str :=
  pySplitSepGo sep s.length s

/-- Worker for Python `str.count(sub)`, with the same fuel device. -/
def pyCountSubGo (sep : Str) : Nat → Str → Nat
  | _, [] => 0
  | 0, _ => 0
  | fuel + 1, c :: rest =>
    if sep ≠ [] ∧ sep.isPrefixOf (c :: rest) then
      1 + pyCountSubGo sep fuel ((c :: rest).drop sep.length)
    else
      pyCountSubGo sep fuel rest

/-- Python `str.count(sub)` for a nonempty pattern: number of leftmost,
non-overlapping occurrences. -/
def pyCountSub (sep : Str) (s : Str) : Nat :=
  pyCountSubGo sep s.length s

/-- Python `sub in s` (equivalently `s.find(sub) != -1`) for a nonempty
pattern. -/
def pyContainsSub (sub : Str) (s : Str) : Bool :=
  match s with
  | [] => false
  | _ :: rest => sub.isPrefixOf s || pyContainsSub sub rest

/-- Python `sep.join(pieces)`. -/
def joinSep (sep : Str) : List Str → Str
  | [] => []
  | [x] => x
  | x :: y :: xs => x ++ sep ++ joinSep sep (y :: xs)

/-- Python `str.splitlines()` for newline-only line endings. -/
def pySplitlines (s : Str) : List Str :=
  if s = [] then []
  else
    let parts := s.splitOn '\n'
    if parts.getLast? = some [] then parts.dropLast else parts

/-- Python `str.strip(c)` for a single strip character: remove all leading
and trailing copies of `c`. -/
def pyStripChar (c : Char) (s : Str) : Str :=
  ((s.dropWhile (· = c)).reverse.dropWhile (· = c)).reverse

/-- Decimal digit list of a natural number, as Python `str(n)`. -/
def natToStr (n : Nat) : Str := (toString n).data

/-- Python `int(s)` on a nonempty all-digit string. -/
def pyParseNat (s : Str) : Nat :=
  s.foldl (fun a c => 10 * a + (c.toNat - '0'.toNat)) 0

def nl : Str := ['\n']

def nl2 : Str := ['\n', '\n']

def nl3 : Str := ['\n', '\n', '\n']

/-- The count line `'1\n'` injected at the front of every multitest input by
`TestCase.get_multitests`. -/
def countLine : Str := ['1', '\n']

/-- The literal `MULTITEST_HEADER` from `testcases.py`. -/
def MULTITEST_HEADER : Str :=
  ("# io split instructions:\n"
    ++ "# * add exactly one empty line after the first line of input that contains t\n"
    ++ "# * add exactly one empty line on splits\n"
    ++ "# * there should be exactly one empty line between the header and the io and one at the end\n"
    ++ "#   (both should already be there)\n"
    ++ "# * do not add any other comments nor change this header\n"
    ++ "\n").data

/-- The `RunVerdict` enum from `verdicts.py`. -/
inductive RunVerdict where
  | RUNNING
  | ACCEPTED
  | WRONG_ANSWER
  | RUNTIME_ERROR
  | TIME_LIMIT_EXCEEDED
  | CHECKER_RUNTIME_ERROR
  | CHECKER_TIME_LIMIT_EXCEEDED
deriving DecidableEq, Repr

/-- The `CheckerResultType` enum from `checkers.py`. -/
inductive CheckerResultType where
  | ACCEPTED
  | WRONG_ANSWER
  | CHECKER_RUNTIME_ERROR
  | CHECKER_TIME_LIMIT_EXCEEDED
deriving DecidableEq, Repr

/-- The `CheckerResult` dataclass from `checkers.py`. -/
structure CheckerResult where
  result_type : CheckerResultType
  wrong_answer_reason : Option Str
deriving DecidableEq, Repr

/-- The `RunResultType` enum from `execution.py`. -/
inductive RunResultType where
  | SUCCESS
  | RUNTIME_ERROR
  | TIME_LIMIT_EXCEEDED
deriving DecidableEq, Repr

/-- The `RunResult` dataclass from `execution.py`. -/
structure RunResult where
  result_type : RunResultType
  output : Str
deriving DecidableEq, Repr

/-- The `ExecuteResult` dataclass from `execution.py`: what the wrapped
`subprocess.run` call on `['timeout', str(time_limit), str(file)]` produced. -/
structure ExecuteResult where
  stdout : Str
  stderr : Str
  return_code : Int
deriving DecidableEq, Repr

/-- The result-classification layer of `Execution.run` (`execution.py`
lines 77-84): `SUCCESS` on exit code 0, else `RUNTIME_ERROR` when the exit
code is not in `[0, 124]`, else `TIME_LIMIT_EXCEEDED` (the `timeout`
wrapper exits 124 on a missed deadline); the output is the captured stdout,
unchanged. -/
def executionRun (er : ExecuteResult) : RunResult :=
  { result_type :=
      if er.return_code = 0 then RunResultType.SUCCESS
      else if ¬(er.return_code = 0 ∨ er.return_code = 124) then RunResultType.RUNTIME_ERROR
      else RunResultType.TIME_LIMIT_EXCEEDED,
    output := er.stdout }

/-- `CheckerTokens.check` from `checkers.py`. -/
def checkerTokensCheck (io_input expected_output user_output : Str)
    (time_limit : Option ℚ) : CheckerResult :=
  let expected_tokens := pySplitWs expected_output
  let user_tokens := pySplitWs user_output
  if expected_tokens = user_tokens then
    ⟨CheckerResultType.ACCEPTED, none⟩
  else if expected_tokens.length ≠ user_tokens.length then
    ⟨CheckerResultType.WRONG_ANSWER,
      some (("Expected ").data ++ natToStr expected_tokens.length
        ++ (" tokens, got ").data ++ natToStr user_tokens.length)⟩
  else
    let wrong_token_index :=
      (expected_tokens.zip user_tokens).findIdx (fun p => p.1 ≠ p.2)
    ⟨CheckerResultType.WRONG_ANSWER,
      some (("Expected \"").data ++ expected_tokens.getD wrong_token_index []
        ++ ("\", got \"").data ++ user_tokens.getD wrong_token_index []
        ++ ("\" at token ").data ++ natToStr (wrong_token_index + 1))⟩

/-- `CheckerYesNo.check` from `checkers.py`. -/
def checkerYesNoCheck (io_input expected_output user_output : Str)
    (time_limit : Option ℚ) : CheckerResult :=
  let user_tokens := pySplitWs (pyLower user_output)
  match user_tokens.enum.find? (fun p => !(p.2 = ("yes").data || p.2 = ("no").data)) with
  | some (token_number, user_token) =>
    ⟨CheckerResultType.WRONG_ANSWER,
      some (("Expected \"yes\"/\"no\", got \"").data ++ user_token
        ++ ("\" at token ").data ++ natToStr (token_number + 1))⟩
  | none =>
    checkerTokensCheck io_input (pyLower expected_output) (pyLower user_output) none

/-- `CheckerCustom.check` from `checkers.py`, with the external process
abstracted as a `run` oracle standing for `Execution.run` applied to the
compiled checker binary. -/
def checkerCustomCheck (run : Str → ℚ → RunResult)
    (io_input expected_output user_output : Str) (time_limit : ℚ) : CheckerResult :=
  let io_delim : Str := ("---").data
  let run_result := run (joinSep (nl ++ io_delim ++ nl) [io_input, user_output, expected_output]) time_limit
  match run_result.result_type with
  | RunResultType.SUCCESS =>
    if run_result.output = [] then ⟨CheckerResultType.ACCEPTED, none⟩
    else ⟨CheckerResultType.WRONG_ANSWER, some run_result.output⟩
  | RunResultType.RUNTIME_ERROR => ⟨CheckerResultType.CHECKER_RUNTIME_ERROR, none⟩
  | RunResultType.TIME_LIMIT_EXCEEDED => ⟨CheckerResultType.CHECKER_TIME_LIMIT_EXCEEDED, none⟩

/-- The checker invocation made by `Runner.run`'s `run_thread_target`
(`runners.py` lines 167-172) when the checker is custom: the checker is
called with three times the run's time limit. -/
def runnerInvokeCustomChecker (run : Str → ℚ → RunResult)
    (io_input io_output main_output : Str) (time_limit : ℚ) : CheckerResult :=
  checkerCustomCheck run io_input io_output main_output (3 * time_limit)

/-- The overall-verdict aggregation loop of `Runner.run` (`runners.py`
lines 205-211), folded over the unit verdicts in completion order. -/
def runnerOverallVerdict (completion : List RunVerdict) : RunVerdict :=
  completion.foldl
    (fun overall v =>
      if v ≠ RunVerdict.ACCEPTED ∧ overall = RunVerdict.ACCEPTED then v else overall)
    RunVerdict.ACCEPTED

/-- The four content files owned by a Scraped `TestCase`: the entire
testcase input/output and the multitest input/output. -/
structure ScrapedFiles where
  entireIn : Str
  entireOut : Str
  multiIn : Str
  multiOut : Str
deriving DecidableEq, Repr

/-- One side of `TestCase.check_multitest_files`: the multitest file starts
with the header and its remaining token stream equals the entire-testcase
file's token stream. -/
def checkMultitestFileSide (cur entire : Str) : Bool :=
  MULTITEST_HEADER.isPrefixOf cur
    && (pySplitWs (pyDropPre MULTITEST_HEADER cur) == pySplitWs entire)

/-- `TestCase.check_multitest_files` from `testcases.py`. -/
def checkMultitestFiles (f : ScrapedFiles) : Bool × Bool :=
  (checkMultitestFileSide f.multiIn f.entireIn,
   checkMultitestFileSide f.multiOut f.entireOut)

/-- `TestCase.check_multitests` from `testcases.py`. -/
def checkMultitests (f : ScrapedFiles) : Bool × Bool :=
  let multitest_input := pyDropPre MULTITEST_HEADER f.multiIn
  let multitest_output := pyDropPre MULTITEST_HEADER f.multiOut
  let checks := checkMultitestFiles f
  if checks.1 = false then (false, false)
  else
    let multitest_input_line := pySplitlines multitest_input
    let first_input_line := if multitest_input_line.length ≥ 1 then multitest_input_line.headI else []
    if first_input_line = [] || !(first_input_line.all pyIsDigit) then (false, false)
    else
      let num_multitests := pyParseNat first_input_line
      (!(pyContainsSub nl3 multitest_input)
         && (pyCountSub nl2 multitest_input == num_multitests),
       !(pyContainsSub nl3 multitest_output)
         && checks.2
         && ((pyCountSub nl2 multitest_output : Int) == (num_multitests : Int) - 1))

/-- `TestCase.get_multitests` from `testcases.py`; its `assert` statements
are modelled as `Except.error`. -/
def getMultitests (f : ScrapedFiles) : Except Unit (List (Str × Str)) :=
  if ¬((checkMultitests f).1 = true ∧ (checkMultitests f).2 = true) then Except.error ()
  else
    let multitest_input := pyDropSuf nl (pyDropPre MULTITEST_HEADER f.multiIn)
    let multitest_output := pyDropSuf nl (pyDropPre MULTITEST_HEADER f.multiOut)
    let num_multitests := pyParseNat (pySplitlines multitest_input).headI
    let multitest_inputs :=
      ((pySplitSep nl2 multitest_input).tail).map (fun io_input => countLine ++ (io_input ++ nl))
    let multitest_outputs :=
      (pySplitSep nl2 multitest_output).map (fun io_output => io_output ++ nl)
    if multitest_inputs.length = num_multitests ∧ multitest_outputs.length = num_multitests then
      Except.ok (multitest_inputs.zip multitest_outputs)
    else Except.error ()

/-- The `TestCaseMode` enum from `testcases.py`. -/
inductive TestCaseMode where
  | ONE
  | MULTIPLE
deriving DecidableEq, Repr

/-- The `TestCaseRun` dataclass from `testcases.py`. -/
structure TestCaseRun where
  id : Str
  io_input : Str
  io_output : Str
deriving DecidableEq, Repr

/-- `TestCase.get_testcases` from `testcases.py` for a Scraped testcase;
the `assert` statements are modelled as `Except.error`. -/
def getTestcasesScraped (testcase_id : Nat) (f : ScrapedFiles) (mode : TestCaseMode) :
    Except Unit (List TestCaseRun) :=
  match mode with
  | TestCaseMode.ONE =>
    Except.ok [⟨natToStr testcase_id, f.entireIn, f.entireOut⟩]
  | TestCaseMode.MULTIPLE =>
    if ¬((checkMultitests f).1 = true ∧ (checkMultitests f).2 = true) then Except.error ()
    else
      match getMultitests f with
      | Except.error _ => Except.error ()
      | Except.ok pairs =>
        Except.ok (pairs.enum.map (fun p =>
          ⟨natToStr testcase_id ++ ('-' :: natToStr (p.1 + 1)), p.2.1, p.2.2⟩))

/-- One side of `TestCase.set_multitest_files` from `testcases.py`: the new
content of a multitest file given its current content, the entire-testcase
content, and the optional scraped split pieces. -/
def setMultitestFile (cur entire : Str) (splits : Option (List Str)) : Str :=
  if checkMultitestFileSide cur entire = true then cur
  else
    match splits with
    | some pieces => MULTITEST_HEADER ++ joinSep nl2 pieces
    | none => MULTITEST_HEADER ++ entire

/-- The `TestCaseType` enum from `testcases.py`. -/
inductive TestCaseType where
  | SCRAPED
  | USER_ADDED
  | RANDOM
deriving DecidableEq, Repr

/-- The `IOPair` dataclass from `testcases.py`, over an abstract file type. -/
structure IOPairM (α : Type) where
  io_input : α
  io_output : α
deriving DecidableEq, Repr

/-- The fields of a `TestCase` relevant to deletion. -/
structure TestCaseModel (α : Type) where
  testcase_type : TestCaseType
  entire_testcase : IOPairM α
  multiple_testcases : Option (IOPairM α)
deriving DecidableEq, Repr

/-- `TestCase.delete` from `testcases.py`: returns the files whose
`delete_file` is called, in order; its `assert` is modelled as
`Except.error`. -/
def testCaseDelete {α : Type} (tc : TestCaseModel α) : Except Unit (List α) :=
  let base := [tc.entire_testcase.io_input, tc.entire_testcase.io_output]
  if tc.testcase_type = TestCaseType.SCRAPED then
    match tc.multiple_testcases with
    | none => Except.error ()
    | some m => Except.ok (base ++ [m.io_input, m.io_output])
  else Except.ok base

/-- The predicate `line.lower() in ['yes', 'no']` from `scraper.py`. -/
def isYesNoLine (l : Str) : Bool :=
  pyLower l == ("yes").data || pyLower l == ("no").data

/-- `more_itertools.split_before`: partition a list into groups, starting a
new group before each element satisfying the predicate. -/
def splitBefore {α : Type} [Inhabited α] (p : α → Bool) : List α → List (List α)
  | [] => []
  | x :: xs =>
    match splitBefore p xs with
    | [] => [[x]]
    | g :: gs => if p g.headI then [x] :: g :: gs else (x :: g) :: gs

/-- `ScraperCodeforces.attempt_multitest_output_one_line` from `scraper.py`. -/
def attemptMultitestOutputOneLine (io_output : Str) (num_multitests : Nat) : Option (List Str) :=
  let output_lines := pySplitlines (pyStripChar '\n' io_output)
  if output_lines.length = num_multitests then some output_lines else none

/-- `ScraperCodeforces.attempt_multitest_output_yes_no` from `scraper.py`. -/
def attemptMultitestOutputYesNo (io_output : Str) (num_multitests : Nat) : Option (List Str) :=
  let output_lines := pySplitlines (pyStripChar '\n' io_output)
  let multitests := splitBefore isYesNoLine output_lines
  if output_lines.length ≥ 1 ∧ isYesNoLine output_lines.headI = true
      ∧ multitests.length = num_multitests then
    some (multitests.map (joinSep nl))
  else none

/-- `ScraperCodeforces.attempt_multitest_output` from `scraper.py`. -/
def attemptMultitestOutput (io_output : Str) (num_multitests : Nat) : Option (List Str) :=
  match attemptMultitestOutputOneLine io_output num_multitests with
  | some r => some r
  | none =>
    match attemptMultitestOutputYesNo io_output num_multitests with
    | some r => some r
    | none => none

/-! ### Helper lemmas about the embedded string operations -/

theorem modifyHead_append_of_ne_nil {α : Type} (f : α → α) (l l' : List α) (h : l ≠ []) :
    (l ++ l').modifyHead f = l.modifyHead f ++ l' := by
  cases l with
  | nil => exact absurd rfl h
  | cons x xs => simp [List.modifyHead]

theorem splitOnP_append_sep (p : Char → Bool) (c : Char) (hc : p c = true) (xs ys : Str) :
    (xs ++ c :: ys).splitOnP p = xs.splitOnP p ++ ys.splitOnP p := by
  induction xs with
  | nil => simp [List.splitOnP_cons, hc, List.splitOnP_nil]
  | cons x xs ih =>
    by_cases hx : p x = true
    · simp [List.splitOnP_cons, hx, ih]
    · simp only [List.cons_append, List.splitOnP_cons, hx, if_neg, Bool.false_eq_true,
        not_false_iff, ih]
      rw [modifyHead_append_of_ne_nil _ _ _ (List.splitOnP_ne_nil _ _)]

theorem pySplitWs_nil : pySplitWs [] = [] := by
  simp [pySplitWs, List.splitOnP_nil]

theorem pySplitWs_append_sep {c : Char} (hc : pyIsSpace c = true) (xs ys : Str) :
    pySplitWs (xs ++ c :: ys) = pySplitWs xs ++ pySplitWs ys := by
  simp [pySplitWs, splitOnP_append_sep pyIsSpace c hc, List.filter_append]

theorem pySplitWs_cons_sep {c : Char} (hc : pyIsSpace c = true) (ys : Str) :
    pySplitWs (c :: ys) = pySplitWs ys := by
  have := pySplitWs_append_sep hc [] ys
  simpa [pySplitWs_nil] using this

theorem pySplitWs_append_sep_nil {c : Char} (hc : pyIsSpace c = true) (xs : Str) :
    pySplitWs (xs ++ [c]) = pySplitWs xs := by
  have := pySplitWs_append_sep hc xs []
  simpa [pySplitWs_nil] using this

theorem nl_isSpace : pyIsSpace '\n' = true := rfl

/-- A leading all-whitespace block does not contribute tokens. -/
theorem pySplitWs_ws_append (sep : Str) (hws : ∀ c ∈ sep, pyIsSpace c = true) (ys : Str) :
    pySplitWs (sep ++ ys) = pySplitWs ys := by
  induction sep with
  | nil => rfl
  | cons c rest ih =>
    have hc : pyIsSpace c = true := hws c (by simp)
    have hws' : ∀ d ∈ rest, pyIsSpace d = true := fun d hd => hws d (by simp [hd])
    calc pySplitWs (c :: rest ++ ys) = pySplitWs (rest ++ ys) := pySplitWs_cons_sep hc _
      _ = pySplitWs ys := ih hws'

/-- Splitting on whitespace ignores an all-whitespace block between two
strings. -/
theorem pySplitWs_append_ws (sep : Str) (hne : sep ≠ []) (hws : ∀ c ∈ sep, pyIsSpace c = true)
    (xs ys : Str) : pySplitWs (xs ++ (sep ++ ys)) = pySplitWs xs ++ pySplitWs ys := by
  cases sep with
  | nil => exact absurd rfl hne
  | cons c rest =>
    have hc : pyIsSpace c = true := hws c (by simp)
    have hws' : ∀ d ∈ rest, pyIsSpace d = true := fun d hd => hws d (by simp [hd])
    calc pySplitWs (xs ++ (c :: rest ++ ys))
        = pySplitWs (xs ++ c :: (rest ++ ys)) := by simp
      _ = pySplitWs xs ++ pySplitWs (rest ++ ys) := pySplitWs_append_sep hc xs (rest ++ ys)
      _ = pySplitWs xs ++ pySplitWs ys := by rw [pySplitWs_ws_append rest hws' ys]

theorem pySplitWs_joinSep (sep : Str) (hne : sep ≠ []) (hws : ∀ c ∈ sep, pyIsSpace c = true)
    (L : List Str) : pySplitWs (joinSep sep L) = (L.map pySplitWs).flatten := by
  induction L with
  | nil => simp [joinSep, pySplitWs_nil]
  | cons x xs ih =>
    cases xs with
    | nil => simp [joinSep]
    | cons y ys =>
      calc pySplitWs (joinSep sep (x :: y :: ys))
          = pySplitWs (x ++ (sep ++ joinSep sep (y :: ys))) := by simp [joinSep]
        _ = pySplitWs x ++ pySplitWs (joinSep sep (y :: ys)) :=
            pySplitWs_append_ws sep hne hws _ _
        _ = pySplitWs x ++ (List.map pySplitWs (y :: ys)).flatten := by rw [ih]
        _ = (List.map pySplitWs (x :: y :: ys)).flatten := by simp

theorem pySplitSepGo_ne_nil (sep : Str) (fuel : Nat) (s : Str) :
    pySplitSepGo sep fuel s ≠ [] := by
  induction fuel generalizing s with
  | zero =>
    cases s with
    | nil => simp [pySplitSepGo]
    | cons c rest => simp [pySplitSepGo]
  | succ fuel ih =>
    cases s with
    | nil => simp [pySplitSepGo]
    | cons c rest =>
      rw [pySplitSepGo]
      by_cases h : sep ≠ [] ∧ sep.isPrefixOf (c :: rest)
      · rw [if_pos h]
        simp
      · rw [if_neg h]
        cases hsp : pySplitSepGo sep fuel rest with
        | nil => exact absurd hsp (ih rest)
        | cons a as => simp [List.modifyHead]

theorem pySplitSep_ne_nil (sep s : Str) : pySplitSep sep s ≠ [] :=
  pySplitSepGo_ne_nil sep s.length s

theorem joinSep_pySplitSepGo (sep : Str) (fuel : Nat) (s : Str) (hf : s.length ≤ fuel) :
    joinSep sep (pySplitSepGo sep fuel s) = s := by
  induction fuel generalizing s with
  | zero =>
    have hs : s = [] := List.length_eq_zero.mp (Nat.le_zero.mp hf)
    subst hs
    simp [pySplitSepGo, joinSep]
  | succ fuel ih =>
    cases s with
    | nil => simp [pySplitSepGo, joinSep]
    | cons c rest =>
      rw [pySplitSepGo]
      by_cases h : sep ≠ [] ∧ sep.isPrefixOf (c :: rest)
      · rw [if_pos h]
        obtain ⟨hne, hpre⟩ := h
        obtain ⟨t, ht⟩ := List.isPrefixOf_iff_prefix.mp hpre
        have hdrop : (c :: rest).drop sep.length = t := by
          rw [← ht, List.drop_left]
        have hsep_pos : 0 < sep.length := List.length_pos.mpr hne
        have htlen : t.length ≤ fuel := by
          have : sep.length + t.length = (c :: rest).length := by
            rw [← ht, List.length_append]
          simp only [List.length_cons] at this hf
          omega
        rw [hdrop]
        cases hsp : pySplitSepGo sep fuel t with
        | nil => exact absurd hsp (pySplitSepGo_ne_nil sep fuel t)
        | cons a as =>
          have ihx := ih t htlen
          rw [hsp] at ihx
          calc joinSep sep ([] :: a :: as) = [] ++ sep ++ joinSep sep (a :: as) := by
                simp [joinSep]
            _ = sep ++ t := by rw [ihx]; simp
            _ = c :: rest := ht
      · rw [if_neg h]
        have hrest : rest.length ≤ fuel := by
          simp only [List.length_cons] at hf
          omega
        have ihx := ih rest hrest
        cases hsp : pySplitSepGo sep fuel rest with
        | nil => exact absurd hsp (pySplitSepGo_ne_nil sep fuel rest)
        | cons a as =>
          rw [hsp] at ihx
          cases as with
          | nil => simpa [List.modifyHead, joinSep] using congrArg (c :: ·) ihx
          | cons b bs =>
            simp only [List.modifyHead, joinSep] at ihx ⊢
            rw [← ihx]
            simp

/-- Round trip: joining the pieces of a Python `split` with the separator
recovers the original string. -/
theorem joinSep_pySplitSep (sep s : Str) : joinSep sep (pySplitSep sep s) = s :=
  joinSep_pySplitSepGo sep s.length s (Nat.le_refl _)

theorem pySplitWs_pySplitSep (sep : Str) (hne : sep ≠ []) (hws : ∀ c ∈ sep, pyIsSpace c = true)
    (s : Str) : ((pySplitSep sep s).map pySplitWs).flatten = pySplitWs s := by
  rw [← pySplitWs_joinSep sep hne hws, joinSep_pySplitSep]

/-- Removing a single trailing newline does not change the whitespace token
stream. -/
theorem pySplitWs_pyDropSuf_nl (s : Str) : pySplitWs (pyDropSuf nl s) = pySplitWs s := by
  unfold pyDropSuf
  by_cases h : nl ≠ [] ∧ nl.isSuffixOf s
  · rw [if_pos h]
    obtain ⟨t, ht⟩ := List.isSuffixOf_iff_suffix.mp h.2
    have hlen : s.length - nl.length = t.length := by
      rw [← ht]; simp [nl]
    rw [hlen, ← ht, List.take_left]
    exact (pySplitWs_append_sep_nil nl_isSpace t).symm
  · rw [if_neg h]

theorem pyDropPre_append (p x : Str) : pyDropPre p (p ++ x) = x := by
  unfold pyDropPre
  rw [if_pos (List.isPrefixOf_iff_prefix.mpr (List.prefix_append p x)), List.drop_left]

/-- Tokenizing the concatenation of newline-terminated pieces gives the
concatenation of the pieces' tokens. -/
theorem pySplitWs_flatten_map_nl (L : List Str) :
    pySplitWs ((L.map (fun p => p ++ nl)).flatten) = (L.map pySplitWs).flatten := by
  induction L with
  | nil => simp [pySplitWs_nil]
  | cons x xs ih =>
    calc pySplitWs ((List.map (fun p => p ++ nl) (x :: xs)).flatten)
        = pySplitWs (x ++ '\n' :: (List.map (fun p => p ++ nl) xs).flatten) := by
          simp [nl]
      _ = pySplitWs x ++ pySplitWs ((List.map (fun p => p ++ nl) xs).flatten) :=
          pySplitWs_append_sep nl_isSpace _ _
      _ = (List.map pySplitWs (x :: xs)).flatten := by rw [ih]; simp

theorem headI_cons_tail {α : Type} [Inhabited α] (l : List α) (h : l ≠ []) :
    l.headI :: l.tail = l := by
  cases l with
  | nil => exact absurd rfl h
  | cons a as => simp

/-! ### Derived definitions used in claim statements -/

/-- How `CheckerCustom.check` maps the result of the single `Execution.run`
invocation to a `CheckerResult` (`checkers.py` lines 164-178). -/
def customCheckerVerdictMap (run_result : RunResult) : CheckerResult :=
  match run_result.result_type with
  | RunResultType.SUCCESS =>
    if run_result.output = [] then ⟨CheckerResultType.ACCEPTED, none⟩
    else ⟨CheckerResultType.WRONG_ANSWER, some run_result.output⟩
  | RunResultType.RUNTIME_ERROR => ⟨CheckerResultType.CHECKER_RUNTIME_ERROR, none⟩
  | RunResultType.TIME_LIMIT_EXCEEDED => ⟨CheckerResultType.CHECKER_TIME_LIMIT_EXCEEDED, none⟩

/-- All content files owned by a testcase: the entire-testcase pair, plus
the multitest pair when present. -/
def ownedFiles {α : Type} (tc : TestCaseModel α) : List α :=
  [tc.entire_testcase.io_input, tc.entire_testcase.io_output]
    ++ (match tc.multiple_testcases with
        | some m => [m.io_input, m.io_output]
        | none => [])

/-- A concrete Scraped testcase over numbered files. -/
def sampleScrapedTC : TestCaseModel Nat :=
  ⟨TestCaseType.SCRAPED, ⟨0, 1⟩, some ⟨2, 3⟩⟩

/-! ### Claim theorems -/

/-- C7: `Execution.run` returns Success carrying the process's stdout iff
the wrapped process exits 0, TimeLimitExceeded iff the `timeout` wrapper
signals a missed deadline (exit code 124), RuntimeError for every other
nonzero exit code, and the captured output is passed through unchanged. -/
theorem claim_C7_execution_run (er : ExecuteResult) :
    (executionRun er).output = er.stdout
    ∧ ((executionRun er).result_type = RunResultType.SUCCESS ↔ er.return_code = 0)
    ∧ ((executionRun er).result_type = RunResultType.TIME_LIMIT_EXCEEDED ↔ er.return_code = 124)
    ∧ ((executionRun er).result_type = RunResultType.RUNTIME_ERROR ↔
        er.return_code ≠ 0 ∧ er.return_code ≠ 124) := by
  unfold executionRun
  by_cases h0 : er.return_code = 0
  · simp [h0]
  · by_cases h124 : er.return_code = 124 <;> simp [h0, h124]

/-- C4: invoked from the runner with time limit `t`, the custom checker
calls `Execution.run` on the checker binary with stdin
`input ++ "\n---\n" ++ actual ++ "\n---\n" ++ expected` and time limit
`3 * t`, and maps the outcome: RuntimeError to CheckerRuntimeError,
TimeLimitExceeded to CheckerTimeLimitExceeded, Success with empty stdout to
Accepted, and Success with nonempty stdout to WrongAnswer carrying the
stdout verbatim. -/
theorem claim_C4_custom_checker (run : Str → ℚ → RunResult)
    (io_input io_output main_output : Str) (time_limit : ℚ) (ht : 0 < time_limit) :
    runnerInvokeCustomChecker run io_input io_output main_output time_limit
      = customCheckerVerdictMap
          (run (io_input ++ ("\n---\n").data ++ main_output ++ ("\n---\n").data ++ io_output)
            (3 * time_limit))
    ∧ (∀ o, customCheckerVerdictMap ⟨RunResultType.RUNTIME_ERROR, o⟩
        = ⟨CheckerResultType.CHECKER_RUNTIME_ERROR, none⟩)
    ∧ (∀ o, customCheckerVerdictMap ⟨RunResultType.TIME_LIMIT_EXCEEDED, o⟩
        = ⟨CheckerResultType.CHECKER_TIME_LIMIT_EXCEEDED, none⟩)
    ∧ customCheckerVerdictMap ⟨RunResultType.SUCCESS, []⟩
        = ⟨CheckerResultType.ACCEPTED, none⟩
    ∧ (∀ o, o ≠ [] → customCheckerVerdictMap ⟨RunResultType.SUCCESS, o⟩
        = ⟨CheckerResultType.WRONG_ANSWER, some o⟩) := by
  refine ⟨?_, fun o => rfl, fun o => rfl, rfl, fun o ho => by simp [customCheckerVerdictMap, ho]⟩
  have harg : joinSep (nl ++ ("---").data ++ nl) [io_input, main_output, io_output]
      = io_input ++ ("\n---\n").data ++ main_output ++ ("\n---\n").data ++ io_output := by
    simp [joinSep, nl]
  simp only [runnerInvokeCustomChecker, checkerCustomCheck, customCheckerVerdictMap, harg]

/-- C4 witness: the equation of `claim_C4_custom_checker` at a concrete
oracle and time limit. -/
theorem claim_C4_custom_checker_witness :
    runnerInvokeCustomChecker (fun _ _ => ⟨RunResultType.SUCCESS, []⟩)
        ("a").data ("b").data ("c").data 1
      = customCheckerVerdictMap
          ((fun (_ : Str) (_ : ℚ) => RunResult.mk RunResultType.SUCCESS [])
            (("a").data ++ ("\n---\n").data ++ ("c").data ++ ("\n---\n").data ++ ("b").data)
            (3 * 1)) :=
  (claim_C4_custom_checker (fun _ _ => ⟨RunResultType.SUCCESS, []⟩)
    ("a").data ("b").data ("c").data 1 (by norm_num)).1

/-- C1: the runner's overall verdict is the verdict of the first run unit
in completion order whose verdict is not Accepted (Accepted when there is
none); hence, for any completion order that is a permutation of the
original run units, all-Accepted units give an Accepted overall verdict and
any non-Accepted unit forces the overall verdict to be one of the
non-Accepted units' verdicts. -/
theorem claim_C1_runner_overall_verdict (orig completion : List RunVerdict)
    (hperm : completion.Perm orig) :
    runnerOverallVerdict completion
      = ((completion.find? (fun v => !(v == RunVerdict.ACCEPTED))).getD RunVerdict.ACCEPTED)
    ∧ ((∀ v ∈ orig, v = RunVerdict.ACCEPTED) →
        runnerOverallVerdict completion = RunVerdict.ACCEPTED)
    ∧ ((∃ v ∈ orig, v ≠ RunVerdict.ACCEPTED) →
        runnerOverallVerdict completion
          ∈ orig.filter (fun v => !(v == RunVerdict.ACCEPTED))) := by
  have hstuck : ∀ (o : RunVerdict) (l : List RunVerdict), o ≠ RunVerdict.ACCEPTED →
      l.foldl (fun overall v =>
        if v ≠ RunVerdict.ACCEPTED ∧ overall = RunVerdict.ACCEPTED then v else overall) o = o := by
    intro o l ho
    induction l with
    | nil => rfl
    | cons v vs ih => simpa [ho] using ih
  have hmain : ∀ l : List RunVerdict, runnerOverallVerdict l
      = ((l.find? (fun v => !(v == RunVerdict.ACCEPTED))).getD RunVerdict.ACCEPTED) := by
    intro l
    induction l with
    | nil => rfl
    | cons v vs ih =>
      by_cases hv : v = RunVerdict.ACCEPTED
      · subst hv
        have h1 : runnerOverallVerdict (RunVerdict.ACCEPTED :: vs) = runnerOverallVerdict vs := by
          simp [runnerOverallVerdict]
        have h2 : (RunVerdict.ACCEPTED :: vs).find? (fun v => !(v == RunVerdict.ACCEPTED))
            = vs.find? (fun v => !(v == RunVerdict.ACCEPTED)) :=
          List.find?_cons_of_neg _ (by simp)
        rw [h1, h2, ih]
      · have h1 : runnerOverallVerdict (v :: vs) = v := by
          simp only [runnerOverallVerdict, List.foldl_cons]
          simp only [hv, ne_eq, not_false_iff, true_and, if_true, and_true, ite_true,
            not_false_eq_true]
          exact hstuck v vs hv
        have h2 : (v :: vs).find? (fun v => !(v == RunVerdict.ACCEPTED)) = some v :=
          List.find?_cons_of_pos _ (by simp [hv])
        rw [h1, h2]
        rfl
  refine ⟨hmain completion, ?_, ?_⟩
  · intro hall
    have hnone : completion.find? (fun v => !(v == RunVerdict.ACCEPTED)) = none := by
      rw [List.find?_eq_none]
      intro v hv
      have := hall v (hperm.mem_iff.mp hv)
      simp [this]
    rw [hmain completion, hnone]
    rfl
  · rintro ⟨w, hw, hwne⟩
    have hwc : w ∈ completion := hperm.mem_iff.mpr hw
    have hex : ∃ v ∈ completion, (!(v == RunVerdict.ACCEPTED)) = true := by
      exact ⟨w, hwc, by simp [hwne]⟩
    obtain ⟨r, hr⟩ := Option.isSome_iff_exists.mp (List.find?_isSome.mpr hex)
    have hrmem : r ∈ completion := List.mem_of_find?_eq_some hr
    have hrp := List.find?_some hr
    rw [hmain completion, hr]
    simp only [Option.getD_some]
    exact List.mem_filter.mpr ⟨hperm.mem_iff.mp hrmem, hrp⟩

/-- C1 witness: the Runner invariant at a concrete original order and a
concrete completion order. -/
theorem claim_C1_runner_overall_verdict_witness :
    runnerOverallVerdict
        [RunVerdict.TIME_LIMIT_EXCEEDED, RunVerdict.ACCEPTED, RunVerdict.WRONG_ANSWER]
      ∈ List.filter (fun v => !(v == RunVerdict.ACCEPTED))
          [RunVerdict.ACCEPTED, RunVerdict.WRONG_ANSWER, RunVerdict.TIME_LIMIT_EXCEEDED] :=
  (claim_C1_runner_overall_verdict
      [RunVerdict.ACCEPTED, RunVerdict.WRONG_ANSWER, RunVerdict.TIME_LIMIT_EXCEEDED]
      [RunVerdict.TIME_LIMIT_EXCEEDED, RunVerdict.ACCEPTED, RunVerdict.WRONG_ANSWER]
      (by decide)).2.2 ⟨RunVerdict.WRONG_ANSWER, by decide, by decide⟩

/-- C8 counterexample: deleting a concrete Scraped testcase does not fail
an assertion; `TestCase.delete` completes and removes all four owned
files. -/
theorem claim_C8_counterexample :
    sampleScrapedTC.testcase_type = TestCaseType.SCRAPED
    ∧ testCaseDelete sampleScrapedTC ≠ Except.error ()
    ∧ testCaseDelete sampleScrapedTC = Except.ok [0, 1, 2, 3] := by
  refine ⟨rfl, ?_, rfl⟩
  intro h
  rw [show testCaseDelete sampleScrapedTC = Except.ok [0, 1, 2, 3] from rfl] at h
  exact Except.noConfusion h

/-- C8 amended: under the class invariant (a testcase is Scraped iff it has
multitest files), `TestCase.delete` never fails an assertion for any kind —
there is no assertion rejecting Scraped testcases, that restriction is
enforced only at call sites — and it removes exactly all of the testcase's
owned content files. -/
theorem claim_C8_delete (tc : TestCaseModel Nat)
    (hinv : tc.testcase_type = TestCaseType.SCRAPED ↔ tc.multiple_testcases.isSome = true) :
    testCaseDelete tc = Except.ok (ownedFiles tc) := by
  unfold testCaseDelete ownedFiles
  by_cases hs : tc.testcase_type = TestCaseType.SCRAPED
  · have : tc.multiple_testcases.isSome = true := hinv.mp hs
    obtain ⟨m, hm⟩ := Option.isSome_iff_exists.mp this
    rw [if_pos hs, hm]
  · have hnone : tc.multiple_testcases = none := by
      cases h : tc.multiple_testcases with
      | none => rfl
      | some m => exact absurd (hinv.mpr (by simp [h])) hs
    rw [if_neg hs, hnone]
    simp

/-- C8 witness: the amended deletion behaviour at the concrete Scraped
testcase. -/
theorem claim_C8_delete_witness :
    testCaseDelete sampleScrapedTC = Except.ok (ownedFiles sampleScrapedTC) :=
  claim_C8_delete sampleScrapedTC (by decide)

theorem checkerTokensCheck_ignores_input_and_time (io_input io_input' expected_output
    user_output : Str) (tl tl' : Option ℚ) :
    checkerTokensCheck io_input expected_output user_output tl
      = checkerTokensCheck io_input' expected_output user_output tl' := rfl

/-- On equal-length but different token lists, `findIdx` over the zip finds
the first divergent position. -/
theorem first_divergence (e u : List Str) (hlen : e.length = u.length) (hne : e ≠ u) :
    (e.zip u).findIdx (fun p => p.1 ≠ p.2) < e.length
    ∧ e.getD ((e.zip u).findIdx (fun p => p.1 ≠ p.2)) []
        ≠ u.getD ((e.zip u).findIdx (fun p => p.1 ≠ p.2)) []
    ∧ ∀ j, j < (e.zip u).findIdx (fun p => p.1 ≠ p.2) →
        e.getD j [] = u.getD j [] := by
  induction e generalizing u with
  | nil =>
    cases u with
    | nil => exact absurd rfl hne
    | cons b bs => simp at hlen
  | cons a as ih =>
    cases u with
    | nil => simp at hlen
    | cons b bs =>
      by_cases hab : a = b
      · subst hab
        have hne' : as ≠ bs := fun h => hne (by rw [h])
        have hlen' : as.length = bs.length := by simpa using hlen
        obtain ⟨j1, j2, j3⟩ := ih bs hlen' hne'
        have hfi : ((a :: as).zip (a :: bs)).findIdx (fun p => p.1 ≠ p.2)
            = (as.zip bs).findIdx (fun p => p.1 ≠ p.2) + 1 := by
          rw [List.zip_cons_cons, List.findIdx_cons]
          simp
        rw [hfi]
        refine ⟨by simpa using j1, by simpa using j2, ?_⟩
        intro j hj
        cases j with
        | zero => rfl
        | succ k =>
          have := j3 k (by omega)
          simpa using this
      · have hfi : ((a :: as).zip (b :: bs)).findIdx (fun p => p.1 ≠ p.2) = 0 := by
          rw [List.zip_cons_cons, List.findIdx_cons]
          simp [hab]
        rw [hfi]
        exact ⟨by simp, by simpa using hab, fun j hj => absurd hj (by omega)⟩

/-- C5: the token checker accepts iff the whitespace token sequences of the
expected and actual outputs are equal; a count mismatch yields a Wrong
Answer with the exact count-mismatch reason; equal counts with a divergence
yield a Wrong Answer naming the first divergent token and its 1-based
index; the input and the time limit never affect the result. -/
theorem claim_C5_token_checker (io_input io_input' expected_output user_output : Str)
    (tl tl' : Option ℚ) :
    checkerTokensCheck io_input expected_output user_output tl
      = checkerTokensCheck io_input' expected_output user_output tl'
    ∧ (checkerTokensCheck io_input expected_output user_output tl
        = ⟨CheckerResultType.ACCEPTED, none⟩
        ↔ pySplitWs expected_output = pySplitWs user_output)
    ∧ ((pySplitWs expected_output).length ≠ (pySplitWs user_output).length →
        checkerTokensCheck io_input expected_output user_output tl
          = ⟨CheckerResultType.WRONG_ANSWER,
              some (("Expected ").data ++ natToStr (pySplitWs expected_output).length
                ++ (" tokens, got ").data ++ natToStr (pySplitWs user_output).length)⟩)
    ∧ ((pySplitWs expected_output).length = (pySplitWs user_output).length →
        pySplitWs expected_output ≠ pySplitWs user_output →
        (((pySplitWs expected_output).zip (pySplitWs user_output)).findIdx
              (fun p => p.1 ≠ p.2) < (pySplitWs expected_output).length
          ∧ (pySplitWs expected_output).getD
              (((pySplitWs expected_output).zip (pySplitWs user_output)).findIdx
                (fun p => p.1 ≠ p.2)) []
            ≠ (pySplitWs user_output).getD
                (((pySplitWs expected_output).zip (pySplitWs user_output)).findIdx
                  (fun p => p.1 ≠ p.2)) []
          ∧ (∀ j, j < ((pySplitWs expected_output).zip (pySplitWs user_output)).findIdx
                (fun p => p.1 ≠ p.2) →
              (pySplitWs expected_output).getD j [] = (pySplitWs user_output).getD j [])
          ∧ checkerTokensCheck io_input expected_output user_output tl
              = ⟨CheckerResultType.WRONG_ANSWER,
                  some (("Expected \"").data
                    ++ (pySplitWs expected_output).getD
                        (((pySplitWs expected_output).zip (pySplitWs user_output)).findIdx
                          (fun p => p.1 ≠ p.2)) []
                    ++ ("\", got \"").data
                    ++ (pySplitWs user_output).getD
                        (((pySplitWs expected_output).zip (pySplitWs user_output)).findIdx
                          (fun p => p.1 ≠ p.2)) []
                    ++ ("\" at token ").data
                    ++ natToStr
                        ((((pySplitWs expected_output).zip (pySplitWs user_output)).findIdx
                          (fun p => p.1 ≠ p.2)) + 1))⟩)) := by
  refine ⟨rfl, ?_, ?_, ?_⟩
  · constructor
    · intro hres
      by_contra hne
      by_cases hlen : (pySplitWs expected_output).length ≠ (pySplitWs user_output).length
      · rw [checkerTokensCheck, if_neg hne, if_pos hlen] at hres
        exact CheckerResultType.noConfusion (congrArg CheckerResult.result_type hres)
      · rw [checkerTokensCheck, if_neg hne, if_neg hlen] at hres
        exact CheckerResultType.noConfusion (congrArg CheckerResult.result_type hres)
    · intro heq
      rw [checkerTokensCheck, if_pos heq]
  · intro hlen
    have hne : pySplitWs expected_output ≠ pySplitWs user_output := by
      intro h
      exact hlen (congrArg List.length h)
    rw [checkerTokensCheck, if_neg hne, if_pos hlen]
  · intro hlen hne
    obtain ⟨h1, h2, h3⟩ := first_divergence (pySplitWs expected_output)
      (pySplitWs user_output) hlen hne
    refine ⟨h1, h2, h3, ?_⟩
    rw [checkerTokensCheck, if_neg hne, if_neg (by omega)]

/-- C5 witness: the token checker at a concrete diverging pair. -/
theorem claim_C5_token_checker_witness :
    checkerTokensCheck [] ("1 2 3").data ("1 5 3").data none
      = ⟨CheckerResultType.WRONG_ANSWER,
          some (("Expected \"").data
            ++ (pySplitWs ("1 2 3").data).getD
                (((pySplitWs ("1 2 3").data).zip (pySplitWs ("1 5 3").data)).findIdx
                  (fun p => p.1 ≠ p.2)) []
            ++ ("\", got \"").data
            ++ (pySplitWs ("1 5 3").data).getD
                (((pySplitWs ("1 2 3").data).zip (pySplitWs ("1 5 3").data)).findIdx
                  (fun p => p.1 ≠ p.2)) []
            ++ ("\" at token ").data
            ++ natToStr
                ((((pySplitWs ("1 2 3").data).zip (pySplitWs ("1 5 3").data)).findIdx
                  (fun p => p.1 ≠ p.2)) + 1))⟩ :=
  ((claim_C5_token_checker [] [] ("1 2 3").data ("1 5 3").data none none).2.2.2
    (by decide) (by decide)).2.2.2

theorem find?_enumFrom_eq_some_of_first {p : Str → Bool} (toks : List Str) (n i : Nat)
    (hi : i < toks.length) (hbad : p (toks.getD i []) = true)
    (hgood : ∀ j, j < i → p (toks.getD j []) = false) :
    (List.enumFrom n toks).find? (fun q => p q.2) = some (n + i, toks.getD i []) := by
  induction toks generalizing n i with
  | nil => simp at hi
  | cons t ts ih =>
    cases i with
    | zero =>
      have hbt : p t = true := by simpa using hbad
      rw [List.enumFrom]
      rw [List.find?_cons_of_pos _ (by simpa using hbt)]
      simp
    | succ k =>
      have hgt : p t = false := by simpa using hgood 0 (Nat.succ_pos k)
      rw [List.enumFrom]
      rw [List.find?_cons_of_neg _ (by simpa using hgt)]
      have hrec := ih (n + 1) k (by simpa using hi) (by simpa using hbad)
        (fun j hj => by simpa using hgood (j + 1) (by omega))
      rw [hrec]
      have harith : n + 1 + k = n + (k + 1) := by omega
      rw [harith]
      rfl

/-- C6: the yes/no checker lower-cases the actual output's tokens; if some
token is neither yes nor no it returns Wrong Answer naming the first such
token and its 1-based index; otherwise it returns exactly the result of the
token checker on the lower-cased input/expected/actual triple. -/
theorem claim_C6_yes_no_checker (io_input expected_output user_output : Str) (tl : Option ℚ) :
    (∀ i, i < (pySplitWs (pyLower user_output)).length →
        ((pySplitWs (pyLower user_output)).getD i [] ≠ ("yes").data
          ∧ (pySplitWs (pyLower user_output)).getD i [] ≠ ("no").data) →
        (∀ j, j < i → ((pySplitWs (pyLower user_output)).getD j [] = ("yes").data
          ∨ (pySplitWs (pyLower user_output)).getD j [] = ("no").data)) →
        checkerYesNoCheck io_input expected_output user_output tl
          = ⟨CheckerResultType.WRONG_ANSWER,
              some (("Expected \"yes\"/\"no\", got \"").data
                ++ (pySplitWs (pyLower user_output)).getD i []
                ++ ("\" at token ").data ++ natToStr (i + 1))⟩)
    ∧ ((∀ t ∈ pySplitWs (pyLower user_output), t = ("yes").data ∨ t = ("no").data) →
        checkerYesNoCheck io_input expected_output user_output tl
          = checkerTokensCheck (pyLower io_input) (pyLower expected_output)
              (pyLower user_output) tl) := by
  constructor
  · intro i hi hbad hgood
    have hfind := find?_enumFrom_eq_some_of_first
      (p := fun t => !(t = ("yes").data || t = ("no").data))
      (pySplitWs (pyLower user_output)) 0 i hi
      (by
        simp only []
        rw [decide_eq_false hbad.1, decide_eq_false hbad.2]
        rfl)
      (fun j hj => by
        simp only []
        rcases hgood j hj with h | h
        · rw [decide_eq_true h]
          rfl
        · rw [decide_eq_true h, Bool.or_true]
          rfl)
    rw [checkerYesNoCheck]
    rw [List.enum, hfind]
    simp
  · intro hall
    have hfind : (pySplitWs (pyLower user_output)).enum.find?
        (fun q => !(q.2 = ("yes").data || q.2 = ("no").data)) = none := by
      rw [List.find?_eq_none]
      rintro ⟨k, t⟩ hmem
      have ht : t ∈ pySplitWs (pyLower user_output) := by
        have := List.mem_map_of_mem Prod.snd hmem
        rwa [List.enum_map_snd] at this
      rcases hall t ht with h | h
      · intro hcontra
        rw [decide_eq_true h] at hcontra
        exact Bool.noConfusion hcontra
      · intro hcontra
        rw [decide_eq_true h, Bool.or_true] at hcontra
        exact Bool.noConfusion hcontra
    rw [checkerYesNoCheck, hfind]
    exact checkerTokensCheck_ignores_input_and_time _ _ _ _ _ _

/-- C6 witness: the yes/no checker at a concrete bad token. -/
theorem claim_C6_yes_no_checker_witness :
    checkerYesNoCheck [] ("yes").data ("maybe").data none
      = ⟨CheckerResultType.WRONG_ANSWER,
          some (("Expected \"yes\"/\"no\", got \"").data
            ++ (pySplitWs (pyLower ("maybe").data)).getD 0 []
            ++ ("\" at token ").data ++ natToStr (0 + 1))⟩ :=
  (claim_C6_yes_no_checker [] ("yes").data ("maybe").data none).1 0
    (by decide) (by decide) (fun j hj => absurd hj (by omega))

theorem isPrefixOf_nil_false (l : Str) (h : l ≠ []) : l.isPrefixOf ([] : Str) = false := by
  cases l with
  | nil => exact absurd rfl h
  | cons c cs => rfl

theorem header_ne_nil : MULTITEST_HEADER ≠ [] := by decide

theorem headI_if_ge_one (l : List Str) :
    (if l.length ≥ 1 then l.headI else []) = l.headI := by
  cases l with
  | nil => rfl
  | cons x xs => simp

/-- C9: the automatic multitest-output split tries the one-line heuristic,
which succeeds exactly when the number of output lines equals T and yields
the lines; otherwise it tries the yes/no heuristic, which partitions the
lines into groups started at each case-insensitive yes/no line and succeeds
exactly when the first line qualifies and the group count equals T; if
neither succeeds, the freshly created (empty) multitest output file is
seeded with the header followed by the entire output verbatim. -/
theorem claim_C9_multitest_output_split (io_output entire : Str) (num_multitests : Nat) :
    ((attemptMultitestOutputOneLine io_output num_multitests).isSome = true ↔
        (pySplitlines (pyStripChar '\n' io_output)).length = num_multitests)
    ∧ ((pySplitlines (pyStripChar '\n' io_output)).length = num_multitests →
        attemptMultitestOutput io_output num_multitests
          = some (pySplitlines (pyStripChar '\n' io_output)))
    ∧ ((pySplitlines (pyStripChar '\n' io_output)).length ≠ num_multitests →
        attemptMultitestOutput io_output num_multitests
          = attemptMultitestOutputYesNo io_output num_multitests)
    ∧ (∀ gs, attemptMultitestOutputYesNo io_output num_multitests = some gs ↔
        (pySplitlines (pyStripChar '\n' io_output) ≠ []
          ∧ isYesNoLine (pySplitlines (pyStripChar '\n' io_output)).headI = true
          ∧ (splitBefore isYesNoLine (pySplitlines (pyStripChar '\n' io_output))).length
              = num_multitests
          ∧ gs = (splitBefore isYesNoLine
              (pySplitlines (pyStripChar '\n' io_output))).map (joinSep nl)))
    ∧ (attemptMultitestOutput io_output num_multitests = none →
        setMultitestFile [] entire none = MULTITEST_HEADER ++ entire) := by
  have hone : ∀ r, attemptMultitestOutputOneLine io_output num_multitests = r →
      attemptMultitestOutput io_output num_multitests
        = (match r with
           | some l => some l
           | none => attemptMultitestOutputYesNo io_output num_multitests) := by
    intro r hr
    cases r with
    | some l =>
      rw [attemptMultitestOutput, hr]
    | none =>
      rw [attemptMultitestOutput, hr]
      cases hy : attemptMultitestOutputYesNo io_output num_multitests <;> simp
  refine ⟨?_, ?_, ?_, ?_, ?_⟩
  · unfold attemptMultitestOutputOneLine
    by_cases h : (pySplitlines (pyStripChar '\n' io_output)).length = num_multitests
    · simp [h]
    · simp [h]
  · intro h
    have h1 : attemptMultitestOutputOneLine io_output num_multitests
        = some (pySplitlines (pyStripChar '\n' io_output)) := by
      unfold attemptMultitestOutputOneLine
      rw [if_pos h]
    exact hone _ h1
  · intro h
    have h1 : attemptMultitestOutputOneLine io_output num_multitests = none := by
      unfold attemptMultitestOutputOneLine
      rw [if_neg h]
    exact hone _ h1
  · intro gs
    unfold attemptMultitestOutputYesNo
    by_cases hcond : (pySplitlines (pyStripChar '\n' io_output)).length ≥ 1
        ∧ isYesNoLine (pySplitlines (pyStripChar '\n' io_output)).headI = true
        ∧ (splitBefore isYesNoLine (pySplitlines (pyStripChar '\n' io_output))).length
            = num_multitests
    · rw [if_pos hcond]
      constructor
      · intro hgs
        have hlen : pySplitlines (pyStripChar '\n' io_output) ≠ [] := by
          have := hcond.1
          intro hnil
          rw [hnil] at this
          simp at this
        exact ⟨hlen, hcond.2.1, hcond.2.2, (Option.some_inj.mp hgs).symm⟩
      · rintro ⟨-, -, -, hgs⟩
        rw [hgs]
    · rw [if_neg hcond]
      constructor
      · intro hcontra
        exact Option.noConfusion hcontra
      · rintro ⟨hne, hyes, hcnt, hgs⟩
        exact absurd ⟨by
          have : 0 < (pySplitlines (pyStripChar '\n' io_output)).length :=
            List.length_pos.mpr hne
          omega, hyes, hcnt⟩ hcond
  · intro hnone
    unfold setMultitestFile
    have hfalse : checkMultitestFileSide [] entire = false := by
      unfold checkMultitestFileSide
      rw [isPrefixOf_nil_false MULTITEST_HEADER header_ne_nil]
      rfl
    rw [hfalse]
    simp

/-- C9 witness: the one-line heuristic at a concrete two-line output. -/
theorem claim_C9_multitest_output_split_witness :
    attemptMultitestOutput (("a\nb\n").data) 2
      = some (pySplitlines (pyStripChar '\n' (("a\nb\n").data))) :=
  (claim_C9_multitest_output_split (("a\nb\n").data) [] 2).2.1 (by decide)

theorem checkMultitestFileSide_eq_true_iff (cur entire : Str) :
    checkMultitestFileSide cur entire = true ↔
      (MULTITEST_HEADER.isPrefixOf cur = true
        ∧ pySplitWs (pyDropPre MULTITEST_HEADER cur) = pySplitWs entire) := by
  unfold checkMultitestFileSide
  rw [Bool.and_eq_true]
  constructor
  · rintro ⟨h1, h2⟩
    exact ⟨h1, by simpa using h2⟩
  · rintro ⟨h1, h2⟩
    exact ⟨h1, by simpa using h2⟩

/-- Full characterisation of `TestCase.check_multitests` as a conjunction
of conditions; shared by several claim proofs. -/
theorem checkMultitests_eq_true_iff (f : ScrapedFiles) :
    ((checkMultitests f).1 = true ↔
      (MULTITEST_HEADER.isPrefixOf f.multiIn = true
        ∧ pySplitWs (pyDropPre MULTITEST_HEADER f.multiIn) = pySplitWs f.entireIn
        ∧ (pySplitlines (pyDropPre MULTITEST_HEADER f.multiIn)).headI ≠ []
        ∧ ((pySplitlines (pyDropPre MULTITEST_HEADER f.multiIn)).headI).all pyIsDigit = true
        ∧ pyContainsSub nl3 (pyDropPre MULTITEST_HEADER f.multiIn) = false
        ∧ pyCountSub nl2 (pyDropPre MULTITEST_HEADER f.multiIn)
            = pyParseNat ((pySplitlines (pyDropPre MULTITEST_HEADER f.multiIn)).headI)))
    ∧ ((checkMultitests f).2 = true ↔
      (MULTITEST_HEADER.isPrefixOf f.multiIn = true
        ∧ pySplitWs (pyDropPre MULTITEST_HEADER f.multiIn) = pySplitWs f.entireIn
        ∧ (pySplitlines (pyDropPre MULTITEST_HEADER f.multiIn)).headI ≠ []
        ∧ ((pySplitlines (pyDropPre MULTITEST_HEADER f.multiIn)).headI).all pyIsDigit = true
        ∧ MULTITEST_HEADER.isPrefixOf f.multiOut = true
        ∧ pySplitWs (pyDropPre MULTITEST_HEADER f.multiOut) = pySplitWs f.entireOut
        ∧ pyContainsSub nl3 (pyDropPre MULTITEST_HEADER f.multiOut) = false
        ∧ (pyCountSub nl2 (pyDropPre MULTITEST_HEADER f.multiOut) : Int)
            = (pyParseNat ((pySplitlines (pyDropPre MULTITEST_HEADER f.multiIn)).headI) : Int)
              - 1)) := by
  simp only [checkMultitests, checkMultitestFiles, headI_if_ge_one]
  by_cases hA : checkMultitestFileSide f.multiIn f.entireIn = true
  · rw [if_neg (by rw [hA]; exact fun h => Bool.noConfusion h)]
    obtain ⟨hpre, htok⟩ := (checkMultitestFileSide_eq_true_iff _ _).mp hA
    by_cases hB : (pySplitlines (pyDropPre MULTITEST_HEADER f.multiIn)).headI = []
        ∨ ¬(((pySplitlines (pyDropPre MULTITEST_HEADER f.multiIn)).headI).all pyIsDigit = true)
    · rw [if_pos (by
        rcases hB with h | h
        · simp [h]
        · rw [Bool.or_eq_true]
          right
          simpa using h)]
      constructor
      · constructor
        · intro h
          exact absurd h (by simp)
        · rintro ⟨-, -, h3, h4, -⟩
          exact absurd (by tauto : _ ∨ _) (by push_neg; exact ⟨h3, h4⟩)
      · constructor
        · intro h
          exact absurd h (by simp)
        · rintro ⟨-, -, h3, h4, -⟩
          exact absurd (by tauto : _ ∨ _) (by push_neg; exact ⟨h3, h4⟩)
    · push_neg at hB
      obtain ⟨hB1, hB2⟩ := hB
      rw [if_neg (by
        rw [Bool.or_eq_true]
        push_neg
        refine ⟨by simpa using hB1, ?_⟩
        rw [hB2]
        simp)]
      constructor
      · rw [Bool.and_eq_true]
        constructor
        · rintro ⟨h1, h2⟩
          refine ⟨hpre, htok, hB1, hB2, by simpa using h1, by simpa using h2⟩
        · rintro ⟨-, -, -, -, h5, h6⟩
          exact ⟨by simpa using h5, by simpa using h6⟩
      · rw [Bool.and_eq_true, Bool.and_eq_true]
        constructor
        · rintro ⟨⟨h1, h2⟩, h3⟩
          obtain ⟨hpre2, htok2⟩ := (checkMultitestFileSide_eq_true_iff _ _).mp h2
          refine ⟨hpre, htok, hB1, hB2, hpre2, htok2, by simpa using h1, by simpa using h3⟩
        · rintro ⟨-, -, -, -, h5, h6, h7, h8⟩
          refine ⟨⟨by simpa using h7, ?_⟩, by simpa using h8⟩
          exact (checkMultitestFileSide_eq_true_iff _ _).mpr ⟨h5, h6⟩
  · rw [if_pos (by
      cases hside : checkMultitestFileSide f.multiIn f.entireIn with
      | false => rfl
      | true => exact absurd hside hA)]
    have hno : ¬(MULTITEST_HEADER.isPrefixOf f.multiIn = true
        ∧ pySplitWs (pyDropPre MULTITEST_HEADER f.multiIn) = pySplitWs f.entireIn) := by
      intro h
      exact hA ((checkMultitestFileSide_eq_true_iff _ _).mpr h)
    constructor
    · constructor
      · intro h
        exact absurd h (by simp)
      · rintro ⟨h1, h2, -⟩
        exact absurd ⟨h1, h2⟩ hno
    · constructor
      · intro h
        exact absurd h (by simp)
      · rintro ⟨h1, h2, -⟩
        exact absurd ⟨h1, h2⟩ hno

/-- C3: the multitest validity check holds for the input file iff the file
starts with the header, the remaining token stream equals the entire input
token stream, the first line after the header is nonempty and all digits
(parsed as T), there is no triple-newline run, and the double-newline count
equals T; it holds for the output file iff the input-side conditions
through parsing T hold, the output file passes the header-and-token check
against the entire output, has no triple-newline run, and its double-
newline count equals T - 1. -/
theorem claim_C3_check_multitests (f : ScrapedFiles) :
    ((checkMultitests f).1 = true ↔
      (MULTITEST_HEADER.isPrefixOf f.multiIn = true
        ∧ pySplitWs (pyDropPre MULTITEST_HEADER f.multiIn) = pySplitWs f.entireIn
        ∧ (pySplitlines (pyDropPre MULTITEST_HEADER f.multiIn)).headI ≠ []
        ∧ ((pySplitlines (pyDropPre MULTITEST_HEADER f.multiIn)).headI).all pyIsDigit = true
        ∧ pyContainsSub nl3 (pyDropPre MULTITEST_HEADER f.multiIn) = false
        ∧ pyCountSub nl2 (pyDropPre MULTITEST_HEADER f.multiIn)
            = pyParseNat ((pySplitlines (pyDropPre MULTITEST_HEADER f.multiIn)).headI)))
    ∧ ((checkMultitests f).2 = true ↔
      (MULTITEST_HEADER.isPrefixOf f.multiIn = true
        ∧ pySplitWs (pyDropPre MULTITEST_HEADER f.multiIn) = pySplitWs f.entireIn
        ∧ (pySplitlines (pyDropPre MULTITEST_HEADER f.multiIn)).headI ≠ []
        ∧ ((pySplitlines (pyDropPre MULTITEST_HEADER f.multiIn)).headI).all pyIsDigit = true
        ∧ MULTITEST_HEADER.isPrefixOf f.multiOut = true
        ∧ pySplitWs (pyDropPre MULTITEST_HEADER f.multiOut) = pySplitWs f.entireOut
        ∧ pyContainsSub nl3 (pyDropPre MULTITEST_HEADER f.multiOut) = false
        ∧ (pyCountSub nl2 (pyDropPre MULTITEST_HEADER f.multiOut) : Int)
            = (pyParseNat ((pySplitlines (pyDropPre MULTITEST_HEADER f.multiIn)).headI) : Int)
              - 1)) :=
  checkMultitests_eq_true_iff f

/-- The multitest file body as read by `TestCase.get_multitests`: the
content without the header and without the final newline. -/
def multitestBody (mfile : Str) : Str := pyDropSuf nl (pyDropPre MULTITEST_HEADER mfile)

theorem nl2_ne_nil : nl2 ≠ [] := by simp [nl2]

theorem nl2_all_space : ∀ c ∈ nl2, pyIsSpace c = true := by decide

theorem checkMultitests_fst_side (f : ScrapedFiles) (h : (checkMultitests f).1 = true) :
    checkMultitestFileSide f.multiIn f.entireIn = true := by
  obtain ⟨h1, h2, -⟩ := ((checkMultitests_eq_true_iff f).1).mp h
  exact (checkMultitestFileSide_eq_true_iff _ _).mpr ⟨h1, h2⟩

theorem checkMultitests_snd_side (f : ScrapedFiles) (h : (checkMultitests f).2 = true) :
    checkMultitestFileSide f.multiOut f.entireOut = true := by
  obtain ⟨-, -, -, -, h5, h6, -⟩ := ((checkMultitests_eq_true_iff f).2).mp h
  exact (checkMultitestFileSide_eq_true_iff _ _).mpr ⟨h5, h6⟩

theorem enum_map_comp_snd {α β : Type} (l : List α) (g : α → β) :
    l.enum.map (fun p => g p.2) = l.map g := by
  have h1 : (fun p : Nat × α => g p.2) = g ∘ Prod.snd := rfl
  rw [h1, ← List.map_map, List.enum_map_snd]

/-- C2 amended: for a Scraped testcase whose `get_testcases(MULTIPLE)` call
succeeds, concatenating the run units' outputs reproduces the
`get_testcases(ONE)` output at the whitespace-token level (not
byte-for-byte), and concatenating the unit inputs with the injected count
lines removed reproduces the token stream of the `get_testcases(ONE)`
input with the tokens of the multitest input's leading blank-line-delimited
segment (the count segment holding T) removed. -/
theorem claim_C2_token_roundtrip (tcid : Nat) (f : ScrapedFiles) (units : List TestCaseRun)
    (hm : getTestcasesScraped tcid f TestCaseMode.MULTIPLE = Except.ok units) :
    getTestcasesScraped tcid f TestCaseMode.ONE
      = Except.ok [⟨natToStr tcid, f.entireIn, f.entireOut⟩]
    ∧ pySplitWs ((units.map TestCaseRun.io_output).flatten) = pySplitWs f.entireOut
    ∧ pySplitWs f.entireIn
        = pySplitWs ((pySplitSep nl2 (multitestBody f.multiIn)).headI)
          ++ pySplitWs ((units.map (fun u => pyDropPre countLine u.io_input)).flatten) := by
  refine ⟨rfl, ?_⟩
  simp only [getTestcasesScraped] at hm
  split at hm
  next hcond => exact absurd hm (fun h => Except.noConfusion h)
  next hcond =>
    rw [not_not] at hcond
    cases hg : getMultitests f with
    | error e =>
      rw [hg] at hm
      simp only [] at hm
      exact absurd hm (fun h => Except.noConfusion h)
    | ok pairs =>
      rw [hg] at hm
      simp only [Except.ok.injEq] at hm
      subst hm
      simp only [getMultitests] at hg
      rw [if_neg (not_not.mpr hcond)] at hg
      split at hg
      swap
      · exact absurd hg (fun h => Except.noConfusion h)
      next hlen =>
        simp only [Except.ok.injEq] at hg
        subst hg
        set piecesI := pySplitSep nl2 (pyDropSuf nl (pyDropPre MULTITEST_HEADER f.multiIn))
          with hpiecesI
        set piecesO := pySplitSep nl2 (pyDropSuf nl (pyDropPre MULTITEST_HEADER f.multiOut))
          with hpiecesO
        set inputs := piecesI.tail.map (fun io_input => countLine ++ (io_input ++ nl))
          with hinputs
        set outputs := piecesO.map (fun io_output => io_output ++ nl) with houtputs
        have hleni : inputs.length = outputs.length := by
          rw [hlen.1, hlen.2]
        have hmap_out : (((inputs.zip outputs).enum.map (fun p =>
            TestCaseRun.mk (natToStr tcid ++ ('-' :: natToStr (p.1 + 1))) p.2.1 p.2.2)).map
              TestCaseRun.io_output) = outputs := by
          rw [List.map_map]
          have hcomp : (TestCaseRun.io_output ∘ fun p : Nat × (Str × Str) =>
              TestCaseRun.mk (natToStr tcid ++ ('-' :: natToStr (p.1 + 1))) p.2.1 p.2.2)
              = fun p : Nat × (Str × Str) => p.2.2 := rfl
          rw [hcomp, enum_map_comp_snd (inputs.zip outputs) (fun q => q.2)]
          have : (fun q : Str × Str => q.2) = Prod.snd := rfl
          rw [this, List.map_snd_zip inputs outputs (le_of_eq hleni.symm)]
        have hmap_in : (((inputs.zip outputs).enum.map (fun p =>
            TestCaseRun.mk (natToStr tcid ++ ('-' :: natToStr (p.1 + 1))) p.2.1 p.2.2)).map
              (fun u => pyDropPre countLine u.io_input))
            = piecesI.tail.map (fun p => p ++ nl) := by
          rw [List.map_map]
          have hcomp : ((fun u => pyDropPre countLine u.io_input) ∘ fun p : Nat × (Str × Str) =>
              TestCaseRun.mk (natToStr tcid ++ ('-' :: natToStr (p.1 + 1))) p.2.1 p.2.2)
              = fun p : Nat × (Str × Str) => pyDropPre countLine p.2.1 := rfl
          rw [hcomp, enum_map_comp_snd (inputs.zip outputs)
            (fun q => pyDropPre countLine q.1)]
          have hfst : (fun q : Str × Str => pyDropPre countLine q.1)
              = (pyDropPre countLine) ∘ Prod.fst := rfl
          rw [hfst, ← List.map_map, List.map_fst_zip inputs outputs (le_of_eq hleni)]
          rw [hinputs, List.map_map]
          apply List.map_congr_left
          intro p hp
          have : countLine ++ (p ++ nl) = countLine ++ (p ++ nl) := rfl
          simp only [Function.comp]
          rw [pyDropPre_append countLine (p ++ nl)]
        constructor
        · rw [hmap_out, houtputs, pySplitWs_flatten_map_nl piecesO, hpiecesO,
            pySplitWs_pySplitSep nl2 nl2_ne_nil nl2_all_space, pySplitWs_pyDropSuf_nl]
          exact ((checkMultitestFileSide_eq_true_iff _ _).mp
            (checkMultitests_snd_side f hcond.2)).2
        · rw [hmap_in, pySplitWs_flatten_map_nl piecesI.tail]
          have hin_tok : pySplitWs f.entireIn
              = pySplitWs (pyDropSuf nl (pyDropPre MULTITEST_HEADER f.multiIn)) := by
            rw [pySplitWs_pyDropSuf_nl]
            exact ((checkMultitestFileSide_eq_true_iff _ _).mp
              (checkMultitests_fst_side f hcond.1)).2.symm
          rw [hin_tok, ← pySplitWs_pySplitSep nl2 nl2_ne_nil nl2_all_space
            (pyDropSuf nl (pyDropPre MULTITEST_HEADER f.multiIn)), ← hpiecesI]
          have hsplit : piecesI = piecesI.headI :: piecesI.tail :=
            (headI_cons_tail piecesI (by rw [hpiecesI]; exact pySplitSep_ne_nil _ _)).symm
          calc (piecesI.map pySplitWs).flatten
              = ((piecesI.headI :: piecesI.tail).map pySplitWs).flatten := by rw [← hsplit]
            _ = pySplitWs piecesI.headI ++ (piecesI.tail.map pySplitWs).flatten := by
                simp [multitestBody]
            _ = pySplitWs ((pySplitSep nl2 (multitestBody f.multiIn)).headI)
                  ++ (piecesI.tail.map pySplitWs).flatten := by
                rw [hpiecesI]
                rfl

/-- The concrete Scraped testcase used for the C2 counterexample and
witness: the multitest files are valid (token streams match) but differ in
whitespace from the entire-testcase files, and the count line is only in
the input. -/
def c2File : ScrapedFiles :=
  ⟨("1\na b\n").data, ("x y\n").data,
   MULTITEST_HEADER ++ ("1\n\na b\n").data, MULTITEST_HEADER ++ ("x\ny\n").data⟩

/-- C2 counterexample: on `c2File` the validity check passes and
`get_testcases(MULTIPLE)` succeeds, yet neither the concatenated outputs
nor the concatenated count-stripped inputs reproduce the
`get_testcases(ONE)` content byte-for-byte. -/
theorem claim_C2_counterexample :
    checkMultitests c2File = (true, true)
    ∧ getTestcasesScraped 1 c2File TestCaseMode.MULTIPLE
        = Except.ok [⟨("1-1").data, ("1\na b\n").data, ("x\ny\n").data⟩]
    ∧ (([⟨("1-1").data, ("1\na b\n").data, ("x\ny\n").data⟩] : List TestCaseRun).map
          TestCaseRun.io_output).flatten ≠ c2File.entireOut
    ∧ (([⟨("1-1").data, ("1\na b\n").data, ("x\ny\n").data⟩] : List TestCaseRun).map
          (fun u => pyDropPre countLine u.io_input)).flatten ≠ c2File.entireIn :=
  ⟨by decide, rfl, by decide, by decide⟩

/-- C2 witness: the amended token-level round trip at the concrete
testcase `c2File`. -/
theorem claim_C2_token_roundtrip_witness :
    getTestcasesScraped 1 c2File TestCaseMode.ONE
      = Except.ok [⟨natToStr 1, c2File.entireIn, c2File.entireOut⟩]
    ∧ pySplitWs ((([⟨("1-1").data, ("1\na b\n").data, ("x\ny\n").data⟩] :
          List TestCaseRun).map TestCaseRun.io_output).flatten)
        = pySplitWs c2File.entireOut
    ∧ pySplitWs c2File.entireIn
        = pySplitWs ((pySplitSep nl2 (multitestBody c2File.multiIn)).headI)
          ++ pySplitWs ((([⟨("1-1").data, ("1\na b\n").data, ("x\ny\n").data⟩] :
              List TestCaseRun).map (fun u => pyDropPre countLine u.io_input)).flatten) :=
  claim_C2_token_roundtrip 1 c2File
    [⟨("1-1").data, ("1\na b\n").data, ("x\ny\n").data⟩] (by rfl)

/-- The concrete Scraped testcase exhibiting the C10 assertion failure: the
multitest input body ends in a blank line, so the double-newline count
taken before stripping the final newline is T, but the split taken after
stripping loses that occurrence. -/
def c10File : ScrapedFiles :=
  ⟨("2\na\n").data, ("x\ny\n").data,
   MULTITEST_HEADER ++ ("2\n\na\n\n").data, MULTITEST_HEADER ++ ("x\n\ny\n").data⟩

/-- C10: on `c10File` the full validity check returns `(True, True)`, yet
`get_multitests` raises its internal length assertion (modelled as
`Except.error`): the split yields 1 input piece while T = 2. -/
theorem claim_C10_get_multitests_assert_fails :
    checkMultitests c10File = (true, true)
    ∧ getMultitests c10File = Except.error ()
    ∧ (pySplitSep nl2 (multitestBody c10File.multiIn)).tail.length = 1
    ∧ pyParseNat ((pySplitlines (multitestBody c10File.multiIn)).headI) = 2 :=
  ⟨by decide, rfl, by decide, by decide⟩

end CFParser
